import Mathlib

/-
Shallow embedding of the Transaction Synthesis Engine of this repository:
src/utils.py (generate_random_transactions_CTA, create_transactions_one_day)
and src/steps/synthetic_data_steps.py (modify_forecasts, generate_transactions,
save_transactions_data_to_mongodb).

Randomness is modelled by oracle functions `Nat → Int` giving the value of the
i-th draw; a draw from a nonempty range [lo, hi] is the oracle value clamped
into the range (as the oracle varies this covers exactly the support of
Python's random.randint).  Python's int(a / b) truncates toward zero and is
Int.tdiv; Python's floor division a // b is Int.fdiv.
-/

/-- Model of the value of Python random.randint(lo, hi) when the range is
nonempty: an arbitrary oracle value r clamped into [lo, hi]. -/
def randintClamp (lo hi r : Int) : Int := max lo (min hi r)

/-- The while loop of generate_random_transactions_CTA (src/utils.py lines
20-33): while divisor > 2, set result = int(current_value / divisor), draw
random_number = random.randint(1, result), subtract it from current_value,
append it to transactions, and decrement divisor.  The fuel argument is the
number of remaining iterations; the wrapper passes (divisor - 2).toNat, which
is exactly how often the condition divisor > 2 holds, so the loop condition is
folded into the fuel.  random.randint raises ValueError when its upper bound
result is below its lower bound 1; the Bool result records that this
exception was raised (the enclosing try in the wrapper catches it and returns
the partial list).  Returns (transactions, current_value, divisor, raised). -/
def ctaLoop (rng : Nat → Int) : Nat → Nat → Int → Int → List Int → List Int × Int × Int × Bool
  | 0, _, current_value, divisor, transactions => (transactions, current_value, divisor, false)
  | fuel + 1, i, current_value, divisor, transactions =>
    let result := Int.tdiv current_value divisor
    if result < 1 then (transactions, current_value, divisor, true)
    else
      ctaLoop rng fuel (i + 1) (current_value - randintClamp 1 result (rng i)) (divisor - 1)
        (transactions ++ [randintClamp 1 result (rng i)])

/-- Embedding of generate_random_transactions_CTA (src/utils.py lines 14-51).  After the
while loop: if divisor reached exactly 2, split the remaining value
target_number - sum(transactions) into remaining_value // 4 and the rest and
append both; otherwise append current_value.  Any exception inside the try is
caught and printed, and the partial transactions list is returned.  The Bool
of the result records whether the except branch ran (the caller receives only
the list; the message is merely printed). -/
def generate_random_transactions_CTA (rng : Nat → Int) (target_number divisor : Int) :
    List Int × Bool :=
  match ctaLoop rng (divisor - 2).toNat 0 target_number divisor [] with
  | (transactions, _, _, true) => (transactions, true)
  | (transactions, current_value, d, false) =>
    if d = 2 then
      (transactions ++
        [Int.fdiv (target_number - transactions.sum) 4,
         (target_number - transactions.sum) - Int.fdiv (target_number - transactions.sum) 4],
       false)
    else
      (transactions ++ [current_value], false)

/-- A timestamp as produced by datetime.datetime.combine(date, time(h, m, s)):
the calendar date (as an ordinal) together with hour, minute and second. -/
structure Timestamp where
  date : Int
  hour : Int
  minute : Int
  second : Int
deriving DecidableEq

/-- The loop of create_transactions_one_day (src/utils.py lines 57-63): for
each amount, draw hour in [0,23], minute in [0,59], second in [0,59], combine
with the date and pair with the amount.  These randint calls have constant
nonempty ranges and never raise, so the enclosing try never fires. -/
def ctodLoop (rngH rngM rngS : Nat → Int) (date : Int) : Nat → List Int → List (Timestamp × Int)
  | _, [] => []
  | i, amount :: rest =>
    (⟨date, randintClamp 0 23 (rngH i), randintClamp 0 59 (rngM i), randintClamp 0 59 (rngS i)⟩,
      amount) :: ctodLoop rngH rngM rngS date (i + 1) rest

/-- Embedding of create_transactions_one_day (src/utils.py lines 53-70): returns the rows
of the DataFrame with columns Timestamp, Amount, in generation order. -/
def create_transactions_one_day (rngH rngM rngS : Nat → Int) (date : Int)
    (transaction_lists : List Int) : List (Timestamp × Int) :=
  ctodLoop rngH rngM rngS date 0 transaction_lists

/-- A pandas DataFrame as seen by modify_forecasts: the two forecast columns
(absent when the column is missing, so that accessing it raises KeyError) and
the remaining columns by name.  Each column is a list of cell values in row
order. -/
structure Frame where
  transactions_per_day_forecast : Option (List Int)
  CTA_forecast : Option (List Int)
  others : List (String × List Int)
deriving DecidableEq

/-- Embedding of modify_forecasts (src/steps/synthetic_data_steps.py lines 53-92): inside a
try, assign df['transactions_per_day_forecast'] =
(df['transactions_per_day_forecast'] + trx_add) * trx_mul, then the same for
'CTA_forecast' with CTA_add, CTA_mul.  A missing column raises KeyError at
that statement, which is caught and printed; statements already executed keep
their effect (in-place column mutation) and df is returned in any case. -/
def modify_forecasts (df : Frame) (trx_add trx_mul CTA_add CTA_mul : Int) : Frame :=
  match df.transactions_per_day_forecast with
  | none => df
  | some trx =>
    let df1 := { df with
      transactions_per_day_forecast := some (trx.map fun x => (x + trx_add) * trx_mul) }
    match df1.CTA_forecast with
    | none => df1
    | some cta => { df1 with CTA_forecast := some (cta.map fun x => (x + CTA_add) * CTA_mul) }

/-- The loop of generate_transactions (src/steps/synthetic_data_steps.py lines
114-121): for each row, read its CTA_forecast and transactions_per_day_forecast
cells and decompose.  A row is modelled as the outcome of reading those two
cells: Except.ok (cta, trx), or Except.error when the access raises.  The
whole for loop sits inside one try, so the first raising row ends the loop:
the rows after it are not processed and the transactions accumulated so far
are kept.  The Bool records that the except branch ran. -/
def genDaysLoop (rng : Nat → Int) :
    List (Except String (Int × Int)) → List (List Int) → List (List Int) × Bool
  | [], transactions => (transactions, false)
  | Except.error _ :: _, transactions => (transactions, true)
  | Except.ok (cta, trx) :: rest, transactions =>
    genDaysLoop rng rest (transactions ++ [(generate_random_transactions_CTA rng cta trx).1])

/-- Embedding of generate_transactions (src/steps/synthetic_data_steps.py lines 94-124):
run the loop, then assign combined_df['transactions'] = transactions.  The
assignment is outside the try; pandas raises ValueError when the list length
differs from the frame length, so the step fails with that error (no batch is
returned) whenever the loop stopped early. -/
def generate_transactions (rng : Nat → Int) (rows : List (Except String (Int × Int))) :
    Except String (List (List Int)) :=
  let r := genDaysLoop rng rows []
  if r.1.length = rows.length then Except.ok r.1
  else Except.error ("Length of values does not match length of index")

/-- Sort key of a Timestamp: timestamps generated by create_transactions_one_day
have hour in [0,23], minute in [0,59], second in [0,59], on which this integer
encoding is order-faithful for chronological order. -/
def tsKey (t : Timestamp) : Int := ((t.date * 24 + t.hour) * 60 + t.minute) * 60 + t.second

/-- Insertion step of sorting the one-day DataFrame by its Timestamp column. -/
def insertSorted (x : Timestamp × Int) : List (Timestamp × Int) → List (Timestamp × Int)
  | [] => [x]
  | y :: ys => if tsKey x.1 ≤ tsKey y.1 then x :: y :: ys else y :: insertSorted x ys

/-- Model of df.sort_values("Timestamp") on a one-day DataFrame. -/
def sortByTimestamp (l : List (Timestamp × Int)) : List (Timestamp × Int) :=
  l.foldr insertSorted []

/-- The insert loop of save_transactions_data_to_mongodb
(src/steps/synthetic_data_steps.py lines 151-159): for each row of the frame
(modelled as its date and its transactions list), build the one-day DataFrame,
sort it by Timestamp, and insert its records into the collection.
insertFailAt models a StorageFailure: insert_many raises at that row index,
the except branch catches it and the function returns, leaving the records
inserted so far.  Returns (collection contents, raised). -/
def insertDays (rngH rngM rngS : Nat → Int) (insertFailAt : Option Nat) :
    Nat → List (Int × List Int) → List (Timestamp × Int) → List (Timestamp × Int) × Bool
  | _, [], coll => (coll, false)
  | idx, (date, transaction_lists) :: rest, coll =>
    if insertFailAt = some idx then (coll, true)
    else insertDays rngH rngM rngS insertFailAt (idx + 1) rest
      (coll ++ sortByTimestamp (create_transactions_one_day rngH rngM rngS date transaction_lists))

/-- Embedding of save_transactions_data_to_mongodb
(src/steps/synthetic_data_steps.py lines 127-161) acting on the target collection's contents: if the ping fails, return
with the collection unchanged; if collection.delete_many({}) fails, return with
the collection unchanged (delete failure modelled as leaving the documents in
place, the observed stale-data outcome); otherwise the delete empties the
collection and the insert loop runs on the emptied collection. -/
def save_transactions_data_to_mongodb (rngH rngM rngS : Nat → Int) (pingOk deleteOk : Bool)
    (insertFailAt : Option Nat) (combined_df : List (Int × List Int))
    (coll : List (Timestamp × Int)) : List (Timestamp × Int) :=
  if pingOk = false then coll
  else if deleteOk = false then coll
  else (insertDays rngH rngM rngS insertFailAt 0 combined_df []).1

/-- The batch generated from a forecast frame alone: the concatenation, in row
order, of each day's sorted one-day records.  Used to state that a successful
replace leaves exactly this batch in the collection, independent of the prior
contents. -/
def expectedBatch (rngH rngM rngS : Nat → Int) (rows : List (Int × List Int)) :
    List (Timestamp × Int) :=
  (rows.map fun r => sortByTimestamp (create_transactions_one_day rngH rngM rngS r.1 r.2)).flatten

theorem tdiv_descent_bounds (a b : Int) (hb : 3 ≤ b) (hba : b ≤ a) :
    1 ≤ Int.tdiv a b ∧ b - 1 ≤ a - Int.tdiv a b := by
  rw [Int.tdiv_eq_ediv (by omega) (by omega)]
  have h1 : 1 ≤ a / b := by rw [Int.le_ediv_iff_mul_le (by omega)]; omega
  have h2 := Int.ediv_add_emod a b
  have h3 := Int.emod_nonneg a (by omega : b ≠ 0)
  exact ⟨h1, by nlinarith [h1, h2, h3]⟩

theorem ctaLoop_descent (rng : Nat → Int) :
    ∀ (fuel i : Nat) (current : Int) (acc : List Int),
      (fuel : Int) + 2 ≤ current →
      ∃ extra c,
        ctaLoop rng fuel i current ((fuel : Int) + 2) acc = (acc ++ extra, c, 2, false) ∧
        extra.sum + c = current ∧ extra.length = fuel ∧ 2 ≤ c ∧ ∀ x ∈ extra, 1 ≤ x := by
  intro fuel
  induction fuel with
  | zero =>
    intro i current acc h
    refine ⟨[], current, by simp [ctaLoop], by simp, rfl, by push_cast at h; omega, by simp⟩
  | succ fuel ih =>
    intro i current acc h
    have hd : ((fuel + 1 : Nat) : Int) + 2 = (fuel : Int) + 3 := by push_cast; ring
    rw [hd] at h ⊢
    have hdb := tdiv_descent_bounds current ((fuel : Int) + 3) (by omega) (by omega)
    have hq1 : 1 ≤ Int.tdiv current ((fuel : Int) + 3) := hdb.1
    have hp1 : 1 ≤ randintClamp 1 (Int.tdiv current ((fuel : Int) + 3)) (rng i) :=
      le_max_left _ _
    have hp2 : randintClamp 1 (Int.tdiv current ((fuel : Int) + 3)) (rng i) ≤
        Int.tdiv current ((fuel : Int) + 3) := max_le hq1 (min_le_left _ _)
    obtain ⟨extra, c, heq, hsum, hlen, hc, hpos⟩ :=
      ih (i + 1) (current - randintClamp 1 (Int.tdiv current ((fuel : Int) + 3)) (rng i))
        (acc ++ [randintClamp 1 (Int.tdiv current ((fuel : Int) + 3)) (rng i)]) (by omega)
    refine ⟨randintClamp 1 (Int.tdiv current ((fuel : Int) + 3)) (rng i) :: extra, c, ?_, ?_, ?_, hc, ?_⟩
    · simp only [ctaLoop]
      rw [if_neg (by omega)]
      rw [show ((fuel : Int) + 3) - 1 = (fuel : Int) + 2 by ring, heq]
      simp
    · simp only [List.sum_cons]; omega
    · simp [hlen]
    · intro x hx
      rcases List.mem_cons.mp hx with rfl | hx
      · exact hp1
      · exact hpos x hx

theorem ctaLoop_accounting (rng : Nat → Int) :
    ∀ (fuel i : Nat) (current : Int) (acc : List Int),
      0 ≤ current →
      ∃ extra c dfin e,
        ctaLoop rng fuel i current ((fuel : Int) + 2) acc = (acc ++ extra, c, dfin, e) ∧
        extra.sum + c = current ∧ 0 ≤ c ∧ (∀ x ∈ extra, 1 ≤ x) ∧ (e = false → dfin = 2) := by
  intro fuel
  induction fuel with
  | zero =>
    intro i current acc h
    exact ⟨[], current, 2, false, by simp [ctaLoop], by simp, h, by simp, fun _ => rfl⟩
  | succ fuel ih =>
    intro i current acc h
    have hd : ((fuel + 1 : Nat) : Int) + 2 = (fuel : Int) + 3 := by push_cast; ring
    rw [hd]
    rcases lt_or_le (Int.tdiv current ((fuel : Int) + 3)) 1 with hlt | hge
    · refine ⟨[], current, (fuel : Int) + 3, true, ?_, by simp, h, by simp, by simp⟩
      simp only [ctaLoop]
      rw [if_pos hlt]
      simp
    · have hqle : Int.tdiv current ((fuel : Int) + 3) ≤ current := by
        rw [Int.tdiv_eq_ediv h (by omega)]
        exact Int.ediv_le_self _ h
      have hp1 : 1 ≤ randintClamp 1 (Int.tdiv current ((fuel : Int) + 3)) (rng i) :=
        le_max_left _ _
      have hp2 : randintClamp 1 (Int.tdiv current ((fuel : Int) + 3)) (rng i) ≤
          Int.tdiv current ((fuel : Int) + 3) := max_le hge (min_le_left _ _)
      obtain ⟨extra, c, dfin, e, heq, hsum, hc, hpos, hdf⟩ :=
        ih (i + 1) (current - randintClamp 1 (Int.tdiv current ((fuel : Int) + 3)) (rng i))
          (acc ++ [randintClamp 1 (Int.tdiv current ((fuel : Int) + 3)) (rng i)]) (by omega)
      refine ⟨randintClamp 1 (Int.tdiv current ((fuel : Int) + 3)) (rng i) :: extra, c, dfin, e,
        ?_, ?_, hc, ?_, hdf⟩
      · simp only [ctaLoop]
        rw [if_neg (by omega)]
        rw [show ((fuel : Int) + 3) - 1 = (fuel : Int) + 2 by ring, heq]
        simp
      · simp only [List.sum_cons]; omega
      · intro x hx
        rcases List.mem_cons.mp hx with rfl | hx
        · exact hp1
        · exact hpos x hx

/-- Claim C1 (amended): for count at least 3 and target_total at least count, the
decomposition returns, without any caught exception, a list of length count
summing exactly to target_total. -/
theorem generate_random_transactions_CTA_exact (rng : Nat → Int) (target_number divisor : Int)
    (h3 : 3 ≤ divisor) (ht : divisor ≤ target_number) :
    (generate_random_transactions_CTA rng target_number divisor).2 = false ∧
    (generate_random_transactions_CTA rng target_number divisor).1.sum = target_number ∧
    (generate_random_transactions_CTA rng target_number divisor).1.length = divisor.toNat := by
  obtain ⟨fuel, rfl⟩ : ∃ fuel : Nat, divisor = (fuel : Int) + 2 := ⟨(divisor - 2).toNat, by omega⟩
  obtain ⟨extra, c, heq, hsum, hlen, hc, -⟩ :=
    ctaLoop_descent rng fuel 0 target_number [] (by omega)
  have hfe : (((fuel : Int) + 2) - 2).toNat = fuel := by omega
  unfold generate_random_transactions_CTA
  rw [hfe, heq]
  dsimp only
  rw [if_pos rfl]
  refine ⟨rfl, ?_, ?_⟩
  · simp only [List.nil_append, List.sum_append, List.sum_cons, List.sum_nil]
    omega
  · simp only [List.nil_append, List.length_append, List.length_cons, List.length_nil, hlen]
    omega

/-- Claim C1 witness: the amended statement at target_total 10, count 3. -/
theorem generate_random_transactions_CTA_exact_witness :
    (generate_random_transactions_CTA (fun _ => 1) 10 3).2 = false ∧
    (generate_random_transactions_CTA (fun _ => 1) 10 3).1.sum = 10 ∧
    (generate_random_transactions_CTA (fun _ => 1) 10 3).1.length = (3 : Int).toNat :=
  generate_random_transactions_CTA_exact (fun _ => 1) 10 3 (by decide) (by decide)

/-- Claim C1 counterexample: at target_total 0 and count 3 (allowed by the
claim), the first draw's upper bound int(0 / 3) is 0, random.randint raises,
the except branch returns the empty list: its length is not 3. -/
theorem generate_random_transactions_CTA_len_cex :
    (generate_random_transactions_CTA (fun _ => 1) 0 3).1.length ≠ 3 := by decide

/-- Claim C2 (amended): for count at least 3, a draw's upper bound is
non-positive exactly when target_total < count (any negative target_total
included): by the descent invariant of ctaLoop_descent the range can never
collapse once target_total is at least count, and when target_total < count it
collapses at the very first draw, int(target_total / count) being below 1.
The ValueError of that draw is caught inside the function, which silently
returns the empty (truncated) list to its caller; the Bool only records the
printed message, and no InvalidInput or DegenerateRange condition reaches the
caller. -/
theorem generate_random_transactions_CTA_degenerate_silent (rng : Nat → Int)
    (target_number divisor : Int) (ht : target_number < divisor) (hd : 3 ≤ divisor) :
    generate_random_transactions_CTA rng target_number divisor = ([], true) := by
  obtain ⟨k, hk⟩ : ∃ k : Nat, (divisor - 2).toNat = k + 1 := ⟨(divisor - 3).toNat, by omega⟩
  have hq : Int.tdiv target_number divisor < 1 := by
    rcases le_or_lt 0 target_number with h0 | h0
    · rw [Int.tdiv_eq_ediv h0 (by omega)]
      have h1 : ¬ 1 ≤ target_number / divisor := by
        rw [Int.le_ediv_iff_mul_le (by omega)]
        omega
      omega
    · have h1 : 0 ≤ (-target_number).tdiv divisor := Int.tdiv_nonneg (by omega) (by omega)
      have h2 : (-target_number).tdiv divisor = -(target_number.tdiv divisor) := Int.neg_tdiv _ _
      omega
  unfold generate_random_transactions_CTA
  rw [hk]
  simp only [ctaLoop]
  rw [if_pos hq]

/-- Claim C2 witness: the amended statement at both triggers, the in-range
degenerate bound (target_total 0, count 3) and the negative target
(target_total -5, count 5). -/
theorem generate_random_transactions_CTA_degenerate_silent_witness :
    generate_random_transactions_CTA (fun _ => 1) 0 3 = ([], true) ∧
    generate_random_transactions_CTA (fun _ => 1) (-5) 5 = ([], true) :=
  ⟨generate_random_transactions_CTA_degenerate_silent (fun _ => 1) 0 3 (by decide) (by decide),
   generate_random_transactions_CTA_degenerate_silent (fun _ => 1) (-5) 5 (by decide) (by decide)⟩

/-- Claim C2 counterexample: at target_total -5 and count 5 the function does
not fail with an error condition; it returns normally, handing its caller the
truncated empty list (which does not even have the requested length). -/
theorem generate_random_transactions_CTA_silent_cex :
    (generate_random_transactions_CTA (fun _ => 1) (-5) 5).1 = [] ∧
    (generate_random_transactions_CTA (fun _ => 1) (-5) 5).1.length ≠ 5 := by decide

/-- Claim C6 (confirmed): for count 2 the loop never runs, the leftover is the
full target_total, and the two returned parts are leftover // 4 and the rest,
summing exactly to target_total. -/
theorem generate_random_transactions_CTA_count_two (rng : Nat → Int) (target_number : Int)
    (ht : 0 ≤ target_number) :
    generate_random_transactions_CTA rng target_number 2 =
      ([Int.fdiv target_number 4, target_number - Int.fdiv target_number 4], false) ∧
    Int.fdiv target_number 4 + (target_number - Int.fdiv target_number 4) = target_number := by
  refine ⟨?_, by ring⟩
  unfold generate_random_transactions_CTA
  norm_num [ctaLoop]

/-- Claim C6 witness: at target_total 10 the two parts are 2 and 8. -/
theorem generate_random_transactions_CTA_count_two_witness :
    generate_random_transactions_CTA (fun _ => 1) 10 2 = ([2, 8], false) :=
  ((generate_random_transactions_CTA_count_two (fun _ => 1) 10 (by decide)).1).trans (by decide)

/-- Claim C5 (amended): for target_total at least 0 and count at least 1,
every element of the returned list is a non-negative integer (positivity
fails: the quarter part of the final split, or the single appended value, can
be 0). -/
theorem generate_random_transactions_CTA_nonneg (rng : Nat → Int) (target_number divisor : Int)
    (ht : 0 ≤ target_number) (hd : 1 ≤ divisor) :
    ∀ x ∈ (generate_random_transactions_CTA rng target_number divisor).1, 0 ≤ x := by
  rcases lt_or_le divisor 3 with hlt | hge
  · have hfe : (divisor - 2).toNat = 0 := by omega
    have key : generate_random_transactions_CTA rng target_number divisor =
        if divisor = 2 then
          ([Int.fdiv target_number 4, target_number - Int.fdiv target_number 4], false)
        else ([target_number], false) := by
      unfold generate_random_transactions_CTA
      rw [hfe]
      simp [ctaLoop]
    rw [key]
    split_ifs with h2
    · intro x hx
      have h4 : 0 ≤ Int.fdiv target_number 4 ∧ Int.fdiv target_number 4 ≤ target_number := by
        rw [Int.fdiv_eq_ediv _ (by omega)]
        omega
      rcases List.mem_cons.mp hx with rfl | hx
      · omega
      · rcases List.mem_cons.mp hx with rfl | hx
        · omega
        · simp at hx
    · intro x hx
      rcases List.mem_cons.mp hx with rfl | hx
      · exact ht
      · simp at hx
  · obtain ⟨fuel, rfl⟩ : ∃ fuel : Nat, divisor = (fuel : Int) + 2 := ⟨(divisor - 2).toNat, by omega⟩
    obtain ⟨extra, c, dfin, e, heq, hsum, hc, hpos, hdf⟩ :=
      ctaLoop_accounting rng fuel 0 target_number [] ht
    have hfe : (((fuel : Int) + 2) - 2).toNat = fuel := by omega
    unfold generate_random_transactions_CTA
    rw [hfe, heq]
    cases e with
    | true =>
      dsimp only
      intro x hx
      simp only [List.nil_append] at hx
      exact le_trans (by omega) (hpos x hx)
    | false =>
      rw [hdf rfl]
      dsimp only
      rw [if_pos rfl]
      intro x hx
      simp only [List.nil_append, List.mem_append, List.mem_cons, List.not_mem_nil,
        or_false] at hx
      have h4 : 0 ≤ Int.fdiv c 4 ∧ Int.fdiv c 4 ≤ c := by
        rw [Int.fdiv_eq_ediv _ (by omega)]
        omega
      have hr : target_number - extra.sum = c := by omega
      rcases hx with hx | hx | hx
      · exact le_trans (by omega) (hpos x hx)
      · rw [hx, hr]; omega
      · rw [hx, hr]; omega

/-- Claim C5 witness: the amended statement evaluated at target_total 10,
count 3: all produced amounts are non-negative. -/
theorem generate_random_transactions_CTA_nonneg_witness :
    0 ≤ (1 : Int) ∧ (1 : Int) ∈ (generate_random_transactions_CTA (fun _ => 1) 10 3).1 :=
  ⟨generate_random_transactions_CTA_nonneg (fun _ => 1) 10 3 (by decide) (by decide) 1
    (by decide), by decide⟩

/-- Claim C5 counterexample: at target_total 0 and count 1 (allowed by the
claim) the returned list is [0], whose element is not a positive integer. -/
theorem generate_random_transactions_CTA_pos_cex :
    (0 : Int) ∈ (generate_random_transactions_CTA (fun _ => 1) 0 1).1 ∧ ¬ (0 : Int) < 0 := by
  decide

theorem genDaysLoop_ok_rows (rng : Nat → Int) :
    ∀ (pre : List (Int × Int)) (rest : List (Except String (Int × Int)))
      (acc : List (List Int)),
      genDaysLoop rng (pre.map Except.ok ++ rest) acc =
        genDaysLoop rng rest
          (acc ++ pre.map fun p => (generate_random_transactions_CTA rng p.1 p.2).1) := by
  intro pre
  induction pre with
  | nil => intro rest acc; simp
  | cons p pre ih =>
    intro rest acc
    simp only [List.map_cons, List.cons_append, genDaysLoop, List.append_eq]
    rw [ih]
    simp

/-- Claim C3 (amended): the whole per-day loop of generate_transactions sits
inside a single try, so the first day whose forecast cells cannot be read ends
the loop: no later day is processed, and the subsequent assignment of the
transactions column raises because the produced list is shorter than the
frame, so the step fails and no batch at all is returned. -/
theorem generate_transactions_abort (rng : Nat → Int) (pre : List (Int × Int)) (e : String)
    (post : List (Except String (Int × Int))) :
    generate_transactions rng (pre.map Except.ok ++ Except.error e :: post) =
      Except.error ("Length of values does not match length of index") := by
  unfold generate_transactions
  rw [genDaysLoop_ok_rows]
  simp only [genDaysLoop]
  rw [if_neg]
  simp only [List.nil_append, List.length_map, List.length_append, List.length_cons]
  omega

/-- Claim C3 counterexample: with three days whose middle day's cells cannot
be read, the step does not return a batch with the failing day dropped (the
claim predicts the first and third day survive): it fails with the pandas
length-mismatch error and returns no batch. -/
theorem generate_transactions_abort_cex :
    generate_transactions (fun _ => 1)
        [Except.ok (10, 3), Except.error ("KeyError"), Except.ok (10, 3)] =
      Except.error ("Length of values does not match length of index") := by
  rfl

/-- Claim C4 (amended): failure in modify_forecasts is column-level, not
point-level: when the transactions_per_day_forecast column is missing the
KeyError is caught and the frame is returned with no transform applied at all
(the CTA_forecast column is not adjusted either); when only the CTA_forecast
column is missing, the transactions column is still transformed; when a
column is present it is transformed at every point. -/
theorem modify_forecasts_missing_column (df : Frame) (a b c d : Int) :
    (df.transactions_per_day_forecast = none → modify_forecasts df a b c d = df) ∧
    (df.CTA_forecast = none → (modify_forecasts df a b c d).CTA_forecast = none) ∧
    (∀ t, df.transactions_per_day_forecast = some t →
      (modify_forecasts df a b c d).transactions_per_day_forecast =
        some (t.map fun x => (x + a) * b)) := by
  rcases df with ⟨trx, cta, others⟩
  cases trx <;> cases cta <;> simp [modify_forecasts]

/-- Claim C4 witness: the amended statement at a frame missing the
transactions column: the frame comes back unchanged. -/
theorem modify_forecasts_missing_column_witness :
    modify_forecasts ⟨none, some [10], []⟩ 5 5 5 5 = ⟨none, some [10], []⟩ :=
  (modify_forecasts_missing_column ⟨none, some [10], []⟩ 5 5 5 5).1 rfl

/-- Claim C4 counterexample: with the transactions_per_day_forecast column
missing and CTA_forecast present with the single point 10, the claim says the
remaining point's transform is still applied, which would give (10+5)*5 = 75;
the code leaves it at 10. -/
theorem modify_forecasts_point_cex :
    (modify_forecasts ⟨none, some [10], []⟩ 5 5 5 5).CTA_forecast = some [10] ∧
    (modify_forecasts ⟨none, some [10], []⟩ 5 5 5 5).CTA_forecast ≠
      some [((10 : Int) + 5) * 5] := by
  decide

theorem randintClamp_bounds (lo hi r : Int) (h : lo ≤ hi) :
    lo ≤ randintClamp lo hi r ∧ randintClamp lo hi r ≤ hi :=
  ⟨le_max_left _ _, max_le h (min_le_left _ _)⟩

theorem ctodLoop_spec (rngH rngM rngS : Nat → Int) (date : Int) :
    ∀ (amounts : List Int) (i : Nat),
      (ctodLoop rngH rngM rngS date i amounts).map Prod.snd = amounts ∧
      ∀ r ∈ ctodLoop rngH rngM rngS date i amounts,
        r.1.date = date ∧ 0 ≤ r.1.hour ∧ r.1.hour ≤ 23 ∧ 0 ≤ r.1.minute ∧ r.1.minute ≤ 59 ∧
          0 ≤ r.1.second ∧ r.1.second ≤ 59 := by
  intro amounts
  induction amounts with
  | nil => intro i; simp [ctodLoop]
  | cons amount rest ih =>
    intro i
    refine ⟨by simp [ctodLoop, (ih (i + 1)).1], ?_⟩
    intro r hr
    rcases List.mem_cons.mp hr with rfl | hr
    · exact ⟨rfl, (randintClamp_bounds 0 23 (rngH i) (by omega)).1,
        (randintClamp_bounds 0 23 (rngH i) (by omega)).2,
        (randintClamp_bounds 0 59 (rngM i) (by omega)).1,
        (randintClamp_bounds 0 59 (rngM i) (by omega)).2,
        (randintClamp_bounds 0 59 (rngS i) (by omega)).1,
        (randintClamp_bounds 0 59 (rngS i) (by omega)).2⟩
    · exact (ih (i + 1)).2 r hr

/-- Claim C7 (confirmed): create_transactions_one_day returns exactly one
record per input amount; the amounts of the records, in order, are exactly the
input amounts (a positional bijection, no resampling); and every record's
timestamp lies on the given date with hour in [0,23], minute in [0,59] and
second in [0,59]. -/
theorem create_transactions_one_day_spec (rngH rngM rngS : Nat → Int) (date : Int)
    (amounts : List Int) :
    (create_transactions_one_day rngH rngM rngS date amounts).length = amounts.length ∧
    (create_transactions_one_day rngH rngM rngS date amounts).map Prod.snd = amounts ∧
    ∀ r ∈ create_transactions_one_day rngH rngM rngS date amounts,
      r.1.date = date ∧ 0 ≤ r.1.hour ∧ r.1.hour ≤ 23 ∧ 0 ≤ r.1.minute ∧ r.1.minute ≤ 59 ∧
        0 ≤ r.1.second ∧ r.1.second ≤ 59 := by
  have h := ctodLoop_spec rngH rngM rngS date amounts 0
  refine ⟨?_, h.1, h.2⟩
  have := congrArg List.length h.1
  simpa using this

/-- Claim C7 witness: the positional-bijection part of the statement evaluated
at date 100 and amounts [3, 4]. -/
theorem create_transactions_one_day_spec_witness :
    ((create_transactions_one_day (fun _ => 5) (fun _ => 6) (fun _ => 7) 100 [3, 4]).map
      Prod.snd) = [3, 4] :=
  (create_transactions_one_day_spec (fun _ => 5) (fun _ => 6) (fun _ => 7) 100 [3, 4]).2.1

theorem insertDays_no_failure (rngH rngM rngS : Nat → Int) :
    ∀ (rows : List (Int × List Int)) (idx : Nat) (coll : List (Timestamp × Int)),
      insertDays rngH rngM rngS none idx rows coll =
        (coll ++ expectedBatch rngH rngM rngS rows, false) := by
  intro rows
  induction rows with
  | nil => intro idx coll; simp [insertDays, expectedBatch]
  | cons row rest ih =>
    intro idx coll
    rcases row with ⟨date, transaction_lists⟩
    simp only [insertDays, expectedBatch, List.map_cons, List.flatten_cons]
    rw [if_neg (by simp)]
    rw [ih]
    simp [expectedBatch]

/-- Claim C8 (confirmed): when the ping, the delete and every insert succeed,
running the replace operation with batch rows1 and then with batch rows2
leaves the collection holding exactly the records generated from rows2 (each
day's sorted records, concatenated in day order): nothing of rows1 or of the
prior contents remains. -/
theorem save_transactions_data_to_mongodb_replace (rngH rngM rngS : Nat → Int)
    (rows1 rows2 : List (Int × List Int)) (prior : List (Timestamp × Int)) :
    save_transactions_data_to_mongodb rngH rngM rngS true true none rows2
        (save_transactions_data_to_mongodb rngH rngM rngS true true none rows1 prior) =
      expectedBatch rngH rngM rngS rows2 := by
  simp [save_transactions_data_to_mongodb, insertDays_no_failure]

/-- Claim C9 (confirmed): when the delete step fails, the function returns
before any insert: the collection keeps its old contents unchanged, whatever
the new batch is. -/
theorem save_transactions_data_to_mongodb_delete_failure (rngH rngM rngS : Nat → Int)
    (insertFailAt : Option Nat) (rows : List (Int × List Int))
    (coll : List (Timestamp × Int)) :
    save_transactions_data_to_mongodb rngH rngM rngS true false insertFailAt rows coll =
      coll := by
  simp [save_transactions_data_to_mongodb]

/-- Claim C10 (confirmed): modify_forecasts touches only the two forecast
columns: every other column is unchanged (values, names and order), the set of
columns is unchanged (a column is present after iff it was present before),
and each forecast column keeps its number of rows (the transform is a
pointwise map, so row order is positionally preserved). -/
theorem modify_forecasts_frame_effect (df : Frame) (a b c d : Int) :
    (modify_forecasts df a b c d).others = df.others ∧
    ((modify_forecasts df a b c d).transactions_per_day_forecast).isSome =
      df.transactions_per_day_forecast.isSome ∧
    ((modify_forecasts df a b c d).CTA_forecast).isSome = df.CTA_forecast.isSome ∧
    ((modify_forecasts df a b c d).transactions_per_day_forecast.getD []).length =
      (df.transactions_per_day_forecast.getD []).length ∧
    ((modify_forecasts df a b c d).CTA_forecast.getD []).length =
      (df.CTA_forecast.getD []).length := by
  rcases df with ⟨trx, cta, others⟩
  cases trx <;> cases cta <;> simp [modify_forecasts]
